import Mathlib

/-!
# A shallow embedding of the greatws WebSocket engine core

This file models, in Lean, the frame dispatcher (`processCallback`), the
streaming header parser (`readHeader`), the write path (`WriteMessage`),
the close path (`closeInner` / `closeAndWaitOnMessage`), the raw socket
write wrapper (`conn.Write`), the handshake accept-key computation
(`secWebSocketAcceptVal`, i.e. SHA-1 + base64), and the tail of the client
`Dial`.  Machine integers are modelled as `Nat`/`Int` with explicit
wrap-around where the Go code relies on it; byte slices are `List Nat`;
callbacks are recorded as explicit `Action` values; fallible paths return
an `Option`/`Except` error.

Functions that live in external packages (wsutil's frame serializer, the
permessage-deflate codec) or in repository files that are not available
(status-code table, `validCode`, `bytesToCloseErrMsg`) are modelled from
the specification and marked as such in their doc comments.
-/

namespace Greatws

/-! ## Opcodes and protocol constants -/

/-- `opcode.Continuation` (wsutil): 0. -/
def opContinuation : Nat := 0

/-- `opcode.Text`: 1. -/
def opText : Nat := 1

/-- `opcode.Binary`: 2. -/
def opBinary : Nat := 2

/-- `opcode.Close`: 8. -/
def opClose : Nat := 8

/-- `opcode.Ping`: 9. -/
def opPing : Nat := 9

/-- `opcode.Pong`: 10. -/
def opPong : Nat := 10

/-- `Opcode.IsControl` (wsutil): Close, Ping and Pong are control opcodes. -/
def isControl (op : Nat) : Bool :=
  op == opClose || op == opPing || op == opPong

/-- `maxControlFrameSize = 125` from the source. -/
def maxControlFrameSize : Nat := 125

/-- Modelled from the spec: `NormalClosure` status code 1000 (the status-code
table is not among the available source files; §6 of the spec fixes 1000). -/
def NormalClosure : Nat := 1000

/-- Modelled from the spec: `ProtocolError` status code 1002 (§6). -/
def ProtocolError : Nat := 1002

/-- Modelled from the spec: `statusCodeToBytes` is defined outside the
available files; a close payload carries the status code as two big-endian
bytes (§4.5, §6). -/
def statusCodeToBytes (code : Nat) : List Nat :=
  [code / 256 % 256, code % 256]

/-- `binary.BigEndian.Uint16` over the first two bytes of a slice. -/
def be16 (l : List Nat) : Nat :=
  l.getD 0 0 * 256 + l.getD 1 0

/-- Modelled from the spec: `validCode` is defined outside the available
files; §4.5 permits 1000, 1001–1003, 1007–1011 and 3000–4999 on the wire. -/
def validCode (code : Nat) : Bool :=
  (1000 ≤ code && code ≤ 1003) || (1007 ≤ code && code ≤ 1011) ||
    (3000 ≤ code && code ≤ 4999)

/-! ## Errors, callback actions, connection state -/

/-- The error kinds the modelled code can produce (§7 of the spec; the
`errs`/error declarations themselves are outside the available files). -/
inductive WsErr where
  | rsv123
  | frameOpcode
  | badOpcode
  | maxControlFrameSize
  | notBeFragmented
  | closePayloadTooSmall
  | closeValue
  | textNotUTF8
  | closed
  | framePayloadLength
  | ioFail
  | inflateFail
  | wrongStatusCode
  | upgradeFieldValue
  | connectionFieldValue
  | secWebSocketAccept
  | closeMsg (code : Nat) (msg : List Nat)
deriving DecidableEq, Repr

/-- An observable effect of the dispatcher / close path: a user callback
invocation or a frame handed to the socket write layer.  `onMessage`'s
payload is an `Option` so that Go's `nil` payload is distinguishable from
an empty one; `writeFrame` records the arguments passed to wsutil's
`frame.WriteFrame` (fin, rsv1, mask, opcode, payload). -/
inductive Action where
  | onClose (e : Option WsErr)
  | onMessage (op : Nat) (payload : Option (List Nat))
  | writeFrame (fin rsv1 mask : Bool) (op : Nat) (payload : List Nat)
deriving DecidableEq, Repr

/-- The configuration consulted by the dispatcher and the write path.
`utf8Check` is a function field exactly as in the Go `Config`.  `inflate`
and `deflate` abstract the permessage-deflate codec (external wsutil
package, not part of this repository's available sources); `writeOk`
abstracts whether the underlying non-blocking socket write succeeds. -/
structure Config where
  decompression : Bool
  compression : Bool
  replyPing : Bool
  ignorePong : Bool
  client : Bool
  utf8Check : List Nat → Bool
  inflate : List Nat → Except WsErr (List Nat)
  deflate : List Nat → List Nat
  writeOk : Bool

/-- A decoded frame as handed to `processCallback` (wsutil `frame.Frame`:
header fields plus payload bytes). -/
structure Frame where
  fin : Bool
  rsv1 : Bool
  rsv2 : Bool
  rsv3 : Bool
  opcode : Nat
  payloadLen : Int
  payload : List Nat
deriving DecidableEq, Repr

/-- The mutable connection state that `processCallback` touches:
the in-progress fragmented message and the closed flag. -/
structure ConnSt where
  fragmentFrameHeader : Option Frame
  fragmentFramePayload : List Nat
  closed : Bool
deriving DecidableEq, Repr

/-- Result of one dispatcher invocation: the updated connection state, the
observable actions in order, and the returned error (`none` = Go `nil`). -/
structure DispatchResult where
  st : ConnSt
  acts : List Action
  err : Option WsErr
deriving DecidableEq, Repr

/-! ## The write path (`Conn.WriteMessage`, source part_000 lines 405-442) -/

/-- `Conn.WriteMessage`: fail `ErrClosed` when the closed flag is set; for
`Text`, fail `ErrTextNotUTF8` when `utf8Check` rejects the payload; deflate
when compression is on and the opcode is data (setting rsv1); then hand the
frame to `frame.WriteFrame`.  The underlying socket send is abstracted by
`cfg.writeOk`. -/
def WriteMessage (cfg : Config) (closed : Bool) (op : Nat) (writeBuf : List Nat) :
    List Action × Option WsErr :=
  if closed then ([], some WsErr.closed)
  else if op == opText && !cfg.utf8Check writeBuf then ([], some WsErr.textNotUTF8)
  else
    let rsv1 := cfg.compression && (op == opText || op == opBinary)
    let buf := if rsv1 then cfg.deflate writeBuf else writeBuf
    if cfg.writeOk then ([Action.writeFrame true rsv1 cfg.client op buf], none)
    else ([], some WsErr.ioFail)

/-- `Conn.WriteTimeout` just forwards to `WriteMessage` (the timeout is a
TODO in the source). -/
def WriteTimeout (cfg : Config) (closed : Bool) (op : Nat) (data : List Nat) :
    List Action × Option WsErr :=
  WriteMessage cfg closed op data

/-- `Conn.writeErrAndOnClose`: write a Close frame carrying the status code,
and (via `defer`) invoke `OnClose(userErr)` whether or not the write
succeeded; the returned error is the write error if any, else `userErr`. -/
def writeErrAndOnClose (cfg : Config) (closed : Bool) (code : Nat) (userErr : WsErr) :
    List Action × Option WsErr :=
  let w := WriteTimeout cfg closed opClose (statusCodeToBytes code)
  match w.2 with
  | some e => (w.1 ++ [Action.onClose (some userErr)], some e)
  | none => (w.1 ++ [Action.onClose (some userErr)], some userErr)

/-- Modelled from the spec: `bytesToCloseErrMsg` is defined outside the
available files; it turns a close payload into the error handed to
`OnClose` (status code from the first two big-endian bytes, then the
UTF-8 reason). -/
def bytesToCloseErrMsg (payload : List Nat) : WsErr :=
  WsErr.closeMsg (be16 payload) (payload.drop 2)

/-! ## The dispatcher (`Conn.processCallback`, source part_000 lines 202-344) -/

/-- `Conn.failRsv1`: rsv1 is unacceptable when decompression is off or the
(message) opcode is not Text/Binary. -/
def failRsv1 (cfg : Config) (op : Nat) : Bool :=
  if !cfg.decompression then true
  else if op != opText && op != opBinary then true
  else false

/-- `Conn.processCallback`, translated branch for branch from the source.
The `c.Close()` called on the unfragmented-text UTF-8 failure path is the
empty `func (c *Conn) Close() {}` of the same file and contributes no
action. -/
def processCallback (cfg : Config) (st : ConnSt) (f : Frame) : DispatchResult :=
  let op := match st.fragmentFrameHeader with
    | some h => h.opcode
    | none => f.opcode
  if f.rsv1 && failRsv1 cfg op || f.rsv2 || f.rsv3 then
    let w := writeErrAndOnClose cfg st.closed ProtocolError WsErr.rsv123
    ⟨st, w.1, w.2⟩
  else
    let fin := f.fin
    if st.fragmentFrameHeader.isSome && !isControl f.opcode then
      match st.fragmentFrameHeader with
      | none => ⟨st, [], none⟩
      | some fh =>
        if f.opcode == opContinuation then
          let fp := st.fragmentFramePayload ++ f.payload
          if fin then
            match (if fh.rsv1 && cfg.decompression then cfg.inflate fp
                   else Except.ok fp) with
            | Except.error e => ⟨{ st with fragmentFramePayload := fp }, [], some e⟩
            | Except.ok fp2 =>
              if fh.opcode == opText && !cfg.utf8Check fp2 then
                ⟨{ st with fragmentFramePayload := fp2 },
                  [Action.onClose (some WsErr.textNotUTF8)], some WsErr.textNotUTF8⟩
              else
                ⟨{ st with fragmentFramePayload := [], fragmentFrameHeader := none },
                  [Action.onMessage fh.opcode (some fp2)], none⟩
          else
            ⟨{ st with fragmentFramePayload := fp }, [], none⟩
        else
          let w := writeErrAndOnClose cfg st.closed ProtocolError WsErr.frameOpcode
          ⟨st, w.1, some WsErr.frameOpcode⟩
    else if f.opcode == opText || f.opcode == opBinary then
      if !fin then
        let fp := if st.fragmentFramePayload.isEmpty
          then st.fragmentFramePayload ++ f.payload
          else st.fragmentFramePayload
        ⟨{ st with fragmentFramePayload := fp, fragmentFrameHeader := some f }, [], none⟩
      else
        match (if f.rsv1 && cfg.decompression then cfg.inflate f.payload
               else Except.ok f.payload) with
        | Except.error e => ⟨st, [], some e⟩
        | Except.ok pl =>
          if f.opcode == opText && !cfg.utf8Check pl then
            ⟨st, [Action.onClose (some WsErr.textNotUTF8)], some WsErr.textNotUTF8⟩
          else
            ⟨st, [Action.onMessage f.opcode (some pl)], none⟩
    else if f.opcode == opClose || f.opcode == opPing || f.opcode == opPong then
      if ((maxControlFrameSize : Nat) : Int) < f.payloadLen then
        let w := writeErrAndOnClose cfg st.closed ProtocolError WsErr.maxControlFrameSize
        ⟨st, w.1, some WsErr.maxControlFrameSize⟩
      else if !fin then
        let w := writeErrAndOnClose cfg st.closed ProtocolError WsErr.notBeFragmented
        ⟨st, w.1, some WsErr.notBeFragmented⟩
      else if f.opcode == opClose then
        if f.payload.length == 0 then
          let w := writeErrAndOnClose cfg st.closed NormalClosure WsErr.closePayloadTooSmall
          ⟨st, w.1, w.2⟩
        else if f.payload.length < 2 then
          let w := writeErrAndOnClose cfg st.closed ProtocolError WsErr.closePayloadTooSmall
          ⟨st, w.1, w.2⟩
        else if !cfg.utf8Check (f.payload.drop 2) then
          let w := writeErrAndOnClose cfg st.closed ProtocolError WsErr.textNotUTF8
          ⟨st, w.1, w.2⟩
        else if !validCode (be16 f.payload) then
          let w := writeErrAndOnClose cfg st.closed ProtocolError WsErr.closeValue
          ⟨st, w.1, w.2⟩
        else
          let w := WriteTimeout cfg st.closed opClose f.payload
          match w.2 with
          | some e => ⟨st, w.1, some e⟩
          | none =>
            let e := bytesToCloseErrMsg f.payload
            ⟨st, w.1 ++ [Action.onClose (some e)], some e⟩
      else if f.opcode == opPing && cfg.replyPing then
        let w := WriteTimeout cfg st.closed opPong f.payload
        match w.2 with
        | some e => ⟨st, w.1 ++ [Action.onClose (some e)], some e⟩
        | none => ⟨st, w.1 ++ [Action.onMessage f.opcode (some f.payload)], none⟩
      else if f.opcode == opPong && cfg.ignorePong then
        ⟨st, [], none⟩
      else
        ⟨st, [Action.onMessage f.opcode none], none⟩
    else
      let w := writeErrAndOnClose cfg st.closed ProtocolError WsErr.badOpcode
      ⟨st, w.1, some WsErr.badOpcode⟩

/-! ## The streaming header parser (`Conn.readHeader`, source part_000 lines 104-175) -/

/-- The parser states (`frameState` in the source; the spec names the middle
one `HeaderExtAndMask`). -/
inductive FrameState where
  | headerStart
  | headerPayloadAndMask
  | payload
deriving DecidableEq, Repr

/-- The scratch header `c.rh` being decoded (`FrameHeader` in the source):
`payloadLen` is a Go `int64`, hence `Int` here. -/
structure RFrameHeader where
  payloadLen : Int
  opcode : Nat
  maskKey : Nat
  mask : Bool
  head : Nat
deriving DecidableEq, Repr

/-- The reader-side connection state used by `readHeader`: the read buffer,
the read index `ri`, the parser state, the pending extended-header size and
the scratch header. -/
structure RConn where
  rbuf : List Nat
  ri : Nat
  curState : FrameState
  haveSize : Nat
  rh : RFrameHeader
deriving DecidableEq, Repr

/-- Go `int64(u)` for a `uint64` value: two's-complement reinterpretation. -/
def toInt64 (u : Nat) : Int :=
  if u < 2 ^ 63 then (u : Int) else (u : Int) - 2 ^ 64

/-- `binary.BigEndian.Uint64` over the first eight bytes of a slice. -/
def be64 (l : List Nat) : Nat :=
  (((((((l.getD 0 0 * 256 + l.getD 1 0) * 256 + l.getD 2 0) * 256 +
    l.getD 3 0) * 256 + l.getD 4 0) * 256 + l.getD 5 0) * 256 +
    l.getD 6 0) * 256 + l.getD 7 0)

/-- `binary.LittleEndian.Uint32` over the first four bytes of a slice. -/
def le32 (l : List Nat) : Nat :=
  l.getD 0 0 + l.getD 1 0 * 256 + l.getD 2 0 * 65536 + l.getD 3 0 * 16777216

/-- Result of the `frameStateHeaderStart` phase of `readHeader`: the updated
connection, the returned error, and whether control falls through to the
next phase (`cont = false` models the early `return` statements). -/
structure StartStep where
  c : RConn
  err : Option WsErr
  cont : Bool
deriving DecidableEq, Repr

/-- The `state == frameStateHeaderStart` block of `Conn.readHeader`:
needs two bytes; decodes the head byte (opcode = low nibble; fin/rsv live in
`head`), the mask bit and the 7-bit length; computes how many extended
bytes are still needed; advances `ri` by 2 and moves to
`frameStateHeaderPayloadAndMask` — except that a zero 7-bit length with no
mask returns early with the state and `ri` untouched. -/
def readHeaderStart (c : RConn) : StartStep :=
  if c.rbuf.length - c.ri < 2 then ⟨c, none, false⟩
  else
    let head := c.rbuf.getD c.ri 0
    let maskAndPayloadLen := c.rbuf.getD (c.ri + 1) 0
    let mask := decide (0 < maskAndPayloadLen &&& 128)
    let haveExt := if mask then 4 else 0
    let pl : Int := ((maskAndPayloadLen &&& 127 : Nat) : Int)
    let rh : RFrameHeader :=
      { payloadLen := pl
        opcode := head &&& 15
        maskKey := c.rh.maskKey
        mask := mask
        head := head }
    if 0 ≤ pl ∧ pl ≤ 125 then
      if pl == 0 && !mask then ⟨{ c with rh := rh }, none, false⟩
      else
        ⟨{ c with
            rh := rh
            curState := FrameState.headerPayloadAndMask
            haveSize := haveExt
            ri := c.ri + 2 }, none, true⟩
    else if pl == 126 then
      ⟨{ c with
          rh := rh
          curState := FrameState.headerPayloadAndMask
          haveSize := haveExt + 2
          ri := c.ri + 2 }, none, true⟩
    else if pl == 127 then
      ⟨{ c with
          rh := rh
          curState := FrameState.headerPayloadAndMask
          haveSize := haveExt + 8
          ri := c.ri + 2 }, none, true⟩
    else
      ⟨{ c with rh := rh }, some WsErr.framePayloadLength, false⟩

/-- The `state == frameStateHeaderPayloadAndMask` block of `Conn.readHeader`:
needs `haveSize` bytes; replaces a 126/127 `payloadLen` by the big-endian
16/64-bit extended length (the 64-bit value through Go's `int64`
conversion, which keeps the sign bit), reads the little-endian mask key if
masked, and moves to `frameStatePayload`.  `ri` is not advanced here,
exactly as in the source. -/
def readHeaderExt (c : RConn) : RConn × Option WsErr :=
  if c.rbuf.length - c.ri < c.haveSize then (c, none)
  else
    let hd := (c.rbuf.drop c.ri).take c.haveSize
    let step : RFrameHeader × List Nat :=
      if c.rh.payloadLen == 126 then
        ({ c.rh with payloadLen := (be16 (hd.take 2) : Int) }, hd.drop 2)
      else if c.rh.payloadLen == 127 then
        ({ c.rh with payloadLen := toInt64 (be64 (hd.take 8)) }, hd.drop 8)
      else (c.rh, hd)
    let rh2 := if step.1.mask then { step.1 with maskKey := le32 (step.2.take 4) }
      else step.1
    ({ c with rh := rh2, curState := FrameState.payload }, none)

/-- `Conn.readHeader`: run the `HeaderStart` phase when in that state
(falling through to the extended phase when it completes, as the local
`state` variable is updated), run the extended phase when already in it,
and do nothing in `Payload` state. -/
def readHeader (c : RConn) : RConn × Option WsErr :=
  if c.curState == FrameState.headerStart then
    let s := readHeaderStart c
    if s.cont then readHeaderExt s.c else (s.c, s.err)
  else if c.curState == FrameState.headerPayloadAndMask then
    readHeaderExt c
  else (c, none)

/-! ## The close path (`closeInner` / `closeAndWaitOnMessage` / `Close`,
source part_000 lines 546-576) -/

/-- The connection fields touched by the close path: the atomic closed
flag, whether `closeOnce` has fired, and the fd. -/
structure CloseSt where
  closed : Bool
  closeOnceUsed : Bool
  fd : Int
deriving DecidableEq, Repr

/-- `Conn.closeInner`: deregister, set `fd := -1`, run `OnClose(c, nil)`
under the `closeOnce` gate, then set the closed flag. -/
def closeInner (st : CloseSt) : CloseSt × List Action :=
  let acts := if st.closeOnceUsed then [] else [Action.onClose none]
  (⟨true, true, -1⟩, acts)

/-- `Conn.closeAndWaitOnMessage`: return immediately when the closed flag
is already set, else run `closeInner`. -/
def closeAndWaitOnMessage (st : CloseSt) : CloseSt × List Action :=
  if st.closed then (st, []) else closeInner st

/-- `Conn.Close` forwards to `closeAndWaitOnMessage(false, nil)`. -/
def connClose (st : CloseSt) : CloseSt × List Action :=
  closeAndWaitOnMessage st

/-- `n` successive calls to `Conn.Close` on the same connection,
accumulating the observable actions. -/
def iterClose : Nat → CloseSt → CloseSt × List Action
  | 0, st => (st, [])
  | n + 1, st =>
    let r := connClose st
    let r2 := iterClose n r.1
    (r2.1, r.2 ++ r2.2)

/-- Successive invocations of the dispatcher on one connection, one frame
per readable event.  The `bigws` event loop (`apiPoll`) discards
`processWebsocketFrame`'s result and keeps the fd registered, so after a
protocol error the dispatcher runs again on the next readable event. -/
def runFrames (cfg : Config) : ConnSt → List Frame → ConnSt × List Action
  | st, [] => (st, [])
  | st, f :: fs =>
    let r := processCallback cfg st f
    let r2 := runFrames cfg r.st fs
    (r2.1, r.acts ++ r2.2)

/-- Recognizer for `OnClose` actions. -/
def isOnClose : Action → Bool
  | Action.onClose _ => true
  | _ => false

/-- How many times `OnClose` fires in a list of actions. -/
def countOnClose (l : List Action) : Nat :=
  (l.filter isOnClose).length

/-- Recognizer for frames handed to the write layer with a given opcode. -/
def isWriteOf (op : Nat) : Action → Bool
  | Action.writeFrame _ _ _ o _ => o == op
  | _ => false

/-! ## The raw socket write wrapper (`conn.Write`, source part_000 lines 77-97) -/

/-- The errno values distinguished by `conn.Write`. -/
inductive UnixErr where
  | eagain
  | eintr
  | epipe
deriving DecidableEq, Repr

/-- Go's slice expression `b[n:]` with an `int` index: panics (`none`)
unless `0 ≤ n ≤ len(b)`. -/
def goSliceFrom (b : List Nat) (n : Int) : Option (List Nat) :=
  if 0 ≤ n ∧ n ≤ (b.length : Int) then some (b.drop n.toNat) else none

/-- Go's `make([]byte, n)`: panics (`none`) when `n < 0`. -/
def goMake (n : Int) : Option (List Nat) :=
  if 0 ≤ n then some (List.replicate n.toNat 0) else none

/-- Go's `copy(dst, src)`: copies `min (len dst) (len src)` bytes into the
front of `dst`. -/
def goCopy (dst src : List Nat) : List Nat :=
  src.take (min dst.length src.length) ++ dst.drop (min dst.length src.length)

/-- What `conn.Write` leaves behind: the returned `(n, err)` pair and the
connection's write buffer. -/
structure WriteOutcome where
  n : Int
  err : Option UnixErr
  wbuf : List Nat
deriving DecidableEq, Repr

/-- `conn.Write` given the `(n, err)` that `unix.Write` returns for the
buffer it is handed (on Linux, `unix.Write` returns `n = -1` alongside any
error).  `none` models a runtime panic.  When the write buffer is
non-empty the new bytes are appended to it first; on `EAGAIN`/`EINTR` the
remainder `b[n:]` is copied into a fresh buffer of `len(b) - n` bytes. -/
def connWrite (wbuf b : List Nat) (res : Int × Option UnixErr) : Option WriteOutcome :=
  let curN : Int := (b.length : Int)
  let b2 := if 0 < wbuf.length then wbuf ++ b else b
  let wb0 := if 0 < wbuf.length then b2 else wbuf
  let n := res.1
  match res.2 with
  | none => some ⟨n, none, wb0⟩
  | some e =>
    if e == UnixErr.eagain || e == UnixErr.eintr then
      match goMake ((b2.length : Int) - n), goSliceFrom b2 n with
      | some newBuf, some tail => some ⟨curN, none, goCopy newBuf tail⟩
      | _, _ => none
    else some ⟨n, some e, wb0⟩

/-! ## SHA-1 and base64 (`secWebSocketAcceptVal`, source utils.go lines 54-60)

`crypto/sha1` and `encoding/base64.StdEncoding` are the Go standard
library; they are embedded here as the standard SHA-1 (FIPS 180) and the
standard base64 alphabet with `=` padding, executable over byte lists. -/

/-- Truncate to 32 bits. -/
def w32 (x : Nat) : Nat := x &&& 0xFFFFFFFF

/-- 32-bit left rotation. -/
def rotl32 (x k : Nat) : Nat :=
  ((x <<< k) ||| (x >>> (32 - k))) &&& 0xFFFFFFFF

/-- A `Nat` as eight big-endian bytes. -/
def be64Bytes (n : Nat) : List Nat :=
  [n >>> 56 &&& 255, n >>> 48 &&& 255, n >>> 40 &&& 255, n >>> 32 &&& 255,
   n >>> 24 &&& 255, n >>> 16 &&& 255, n >>> 8 &&& 255, n &&& 255]

/-- A `Nat` as four big-endian bytes. -/
def be32Bytes (n : Nat) : List Nat :=
  [n >>> 24 &&& 255, n >>> 16 &&& 255, n >>> 8 &&& 255, n &&& 255]

/-- SHA-1 padding: a `0x80` byte, zeros to 56 mod 64, then the bit length
as a big-endian 64-bit value. -/
def sha1Pad (msg : List Nat) : List Nat :=
  msg ++ [0x80] ++ List.replicate ((64 + 55 - msg.length % 64) % 64) 0 ++
    be64Bytes (8 * msg.length)

/-- Big-endian 32-bit words of a byte list. -/
def toWords : List Nat → List Nat
  | a :: b :: c :: d :: rest => (((a * 256 + b) * 256 + c) * 256 + d) :: toWords rest
  | _ => []

/-- The SHA-1 message schedule: the 16 block words extended to 80. -/
def sha1Schedule (w16 : List Nat) : Array Nat :=
  (List.range 64).foldl
    (fun a i =>
      a.push (rotl32 (a.getD (i + 13) 0 ^^^ a.getD (i + 8) 0 ^^^
        a.getD (i + 2) 0 ^^^ a.getD i 0) 1))
    w16.toArray

/-- The five SHA-1 chaining variables. -/
structure Sha1St where
  a : Nat
  b : Nat
  c : Nat
  d : Nat
  e : Nat
deriving DecidableEq, Repr

/-- One SHA-1 round. -/
def sha1Round (w : Array Nat) (st : Sha1St) (i : Nat) : Sha1St :=
  let f :=
    if i < 20 then (st.b &&& st.c) ||| ((st.b ^^^ 0xFFFFFFFF) &&& st.d)
    else if i < 40 then st.b ^^^ st.c ^^^ st.d
    else if i < 60 then (st.b &&& st.c) ||| (st.b &&& st.d) ||| (st.c &&& st.d)
    else st.b ^^^ st.c ^^^ st.d
  let k :=
    if i < 20 then 0x5A827999
    else if i < 40 then 0x6ED9EBA1
    else if i < 60 then 0x8F1BBCDC
    else 0xCA62C1D6
  ⟨w32 (rotl32 st.a 5 + f + st.e + k + w.getD i 0), st.a, rotl32 st.b 30, st.c, st.d⟩

/-- Compress one 64-byte block. -/
def sha1Block (h : Sha1St) (block : List Nat) : Sha1St :=
  let w := sha1Schedule (toWords block)
  let s := (List.range 80).foldl (sha1Round w) h
  ⟨w32 (h.a + s.a), w32 (h.b + s.b), w32 (h.c + s.c), w32 (h.d + s.d), w32 (h.e + s.e)⟩

/-- Split into 64-byte chunks (structurally, with a fuel argument). -/
def chunksAux : Nat → List Nat → List (List Nat)
  | 0, _ => []
  | _, [] => []
  | fuel + 1, l => l.take 64 :: chunksAux fuel (l.drop 64)

/-- The 64-byte blocks of a byte list. -/
def chunks64 (l : List Nat) : List (List Nat) :=
  chunksAux l.length l

/-- SHA-1 of a byte list, as its 20-byte digest. -/
def sha1 (msg : List Nat) : List Nat :=
  let st := (chunks64 (sha1Pad msg)).foldl sha1Block
    ⟨0x67452301, 0xEFCDAB89, 0x98BADCFE, 0x10325476, 0xC3D2E1F0⟩
  be32Bytes st.a ++ be32Bytes st.b ++ be32Bytes st.c ++ be32Bytes st.d ++ be32Bytes st.e

/-- The standard base64 alphabet. -/
def b64Alphabet : List Char :=
  "ABCDEFGHIJKLMNOPQRSTUVWXYZabcdefghijklmnopqrstuvwxyz0123456789+/".data

/-- The base64 digit for a 6-bit value. -/
def b64Char (n : Nat) : Char :=
  b64Alphabet.getD n 'A'

/-- base64 encoding, three input bytes to four output characters, with
`=` padding. -/
def base64Aux : List Nat → List Char
  | [] => []
  | [a] => [b64Char (a >>> 2), b64Char ((a &&& 3) <<< 4), '=', '=']
  | [a, b] =>
    [b64Char (a >>> 2), b64Char (((a &&& 3) <<< 4) ||| (b >>> 4)),
     b64Char ((b &&& 15) <<< 2), '=']
  | a :: b :: c :: rest =>
    b64Char (a >>> 2) :: b64Char (((a &&& 3) <<< 4) ||| (b >>> 4)) ::
      b64Char (((b &&& 15) <<< 2) ||| (c >>> 6)) :: b64Char (c &&& 63) ::
      base64Aux rest

/-- `base64.StdEncoding.EncodeToString`. -/
def base64Encode (l : List Nat) : String :=
  String.mk (base64Aux l)

/-- A string's bytes (`StringToBytes` in utils.go; the values involved are
ASCII, for which UTF-8 bytes and code points coincide). -/
def strBytes (s : String) : List Nat :=
  s.data.map Char.toNat

/-- The RFC 6455 GUID appended to the client key (utils.go `uuid`). -/
def uuid : List Nat :=
  strBytes "258EAFA5-E914-47DA-95CA-C5AB0DC85B11"

/-- `secWebSocketAcceptVal`: SHA-1 over the key bytes followed by the GUID,
base64-encoded. -/
def secWebSocketAcceptVal (val : String) : String :=
  base64Encode (sha1 (strBytes val ++ uuid))

/-! ## The tail of the client handshake (`validateRsp` / `Dial`,
source client.go lines 129-153 and 178-240) -/

/-- `strings.EqualFold` restricted to ASCII (all header values compared by
the source are ASCII). -/
def equalFold (a b : String) : Bool :=
  a.data.map Char.toLower == b.data.map Char.toLower

/-- The pieces of the HTTP 101 response consulted by `validateRsp`. -/
structure HttpResp where
  statusCode : Nat
  upgrade : String
  connection : String
  accept : String

/-- `DialOption.validateRsp`: status 101, `Upgrade`/`Connection` header
checks, and the `Sec-WebSocket-Accept` comparison, all case-insensitive. -/
def validateRsp (rsp : HttpResp) (secWebSocket : String) : Option WsErr :=
  if rsp.statusCode != 101 then some WsErr.wrongStatusCode
  else if !equalFold rsp.upgrade "websocket" then some WsErr.upgradeFieldValue
  else if !equalFold rsp.connection "Upgrade" then some WsErr.connectionFieldValue
  else if !equalFold rsp.accept (secWebSocketAcceptVal secWebSocket) then
    some WsErr.secWebSocketAccept
  else none

/-- The tail of `DialOption.Dial` once the HTTP response is in hand: on a
validation error the named return `c` is still `nil`, and on success the
source's final statement is `return nil, nil` — no `*Conn` is ever
constructed.  `Option Unit` stands for the returned `*Conn` pointer. -/
def dialFinish (rsp : HttpResp) (secWebSocket : String) : Option Unit × Option WsErr :=
  match validateRsp rsp secWebSocket with
  | some e => (none, some e)
  | none => (none, none)

/-! ## Frame serialization on the wire

Modelled from the spec: serialization lives in the external wsutil package
(`frame.WriteFrame`), not in this repository.  Wire layout from §3: first
byte FIN/RSV bits and opcode, second byte mask bit and 7-bit length with
the 126/127 escapes (big-endian extended lengths), then the 4-byte mask
key and the (masked) payload. -/

/-- The 7-bit length field for a payload length. -/
def lenByte7 (n : Nat) : Nat :=
  if n ≤ 125 then n else if n < 65536 then 126 else 127

/-- The extended-length bytes for a payload length. -/
def lenBytesTail (n : Nat) : List Nat :=
  if n ≤ 125 then [] else if n < 65536 then [n >>> 8 &&& 255, n &&& 255]
  else be64Bytes n

/-- A `Nat` as four little-endian bytes (the mask key's wire order). -/
def le32Bytes (n : Nat) : List Nat :=
  [n &&& 255, n >>> 8 &&& 255, n >>> 16 &&& 255, n >>> 24 &&& 255]

/-- XOR-mask a payload with the key bytes cycled. -/
def maskBytes (maskKey : Nat) (payload : List Nat) : List Nat :=
  payload.mapIdx (fun i b => b ^^^ (le32Bytes maskKey).getD (i % 4) 0)

/-- Modelled from the spec: the bytes a `writeFrame` action puts on the
wire (§3's frame header layout followed by the possibly-masked payload). -/
def encodeFrame (fin rsv1 : Bool) (op : Nat) (m : Bool) (maskKey : Nat)
    (payload : List Nat) : List Nat :=
  let b0 := (if fin then 128 else 0) + (if rsv1 then 64 else 0) + op
  let b1 := (if m then 128 else 0) + lenByte7 payload.length
  [b0, b1] ++ lenBytesTail payload.length ++
    (if m then le32Bytes maskKey ++ maskBytes maskKey payload else payload)

/-! ## Concrete fixtures -/

/-- A concrete configuration: no compression, reply to pings, accept every
payload as UTF-8, socket writes succeed. -/
def cfgA : Config :=
  { decompression := false
    compression := false
    replyPing := true
    ignorePong := false
    client := false
    utf8Check := fun _ => true
    inflate := fun l => Except.ok l
    deflate := fun l => l
    writeOk := true }

/-- Like `cfgA` but with a `utf8Check` that rejects every payload. -/
def cfgU : Config :=
  { cfgA with utf8Check := fun _ => false }

/-- Like `cfgA` but with `replyPing` disabled. -/
def cfgNoReply : Config :=
  { cfgA with replyPing := false }

/-- A fresh connection state: no fragmented message in flight, not closed. -/
def st0 : ConnSt := ⟨none, [], false⟩

/-- An all-zero scratch header. -/
def rhZero : RFrameHeader := ⟨0, 0, 0, false, 0⟩

/-- A frame with `rsv2` set: every dispatch of it is a protocol error. -/
def badFrame : Frame := ⟨true, false, true, false, opText, 0, []⟩

/-- The ping payload `"ping"`. -/
def pingPayload : List Nat := [112, 105, 110, 103]

/-- An incoming Ping frame carrying `"ping"`. -/
def pingFrame : Frame := ⟨true, false, false, false, opPing, 4, pingPayload⟩

/-- Reader state holding the unmasked empty-payload frame `0x88 0x00`
(a legal server-to-client Close with no payload). -/
def stuckConn : RConn := ⟨[0x88, 0x00], 0, FrameState.headerStart, 0, rhZero⟩

/-- Reader state holding an unmasked frame whose 8-byte extended length
has the most significant bit set: `0x82 0x7F` then `0x80 00 00 00 00 00 00
00`. -/
def negLenConn : RConn :=
  ⟨[0x82, 127, 128, 0, 0, 0, 0, 0, 0, 0], 0, FrameState.headerStart, 0, rhZero⟩

/-! ## Claims -/

/-- C1 counterexample: a final unfragmented Text frame whose payload fails
`utf8Check` produces exactly one action, `OnClose(ErrTextNotUTF8)` — no
Close frame (with status 1007 or any other) is handed to the write layer,
contrary to the claim that a `Close(1007)` is sent to the peer. -/
theorem c1_counterexample :
    (processCallback cfgU st0 ⟨true, false, false, false, opText, 1, [255]⟩).acts
      = [Action.onClose (some WsErr.textNotUTF8)] := by decide

/-- C1 (amended): for a final Text frame whose possibly-inflated payload
fails `utf8Check` — unfragmented, or the final fragment of a Text message;
payload taken as-is when `rsv1` is clear, or as the successful inflation
result when `rsv1` is set and decompression is on (the `if`-hypothesis is
exactly the dispatcher's inflate decision) — the dispatcher invokes
`OnClose(ErrTextNotUTF8)` and fails with `ErrTextNotUTF8`, and performs no
other action: in particular it writes no Close frame. -/
theorem c1_thm :
    (∀ (cfg : Config) (st : ConnSt) (f : Frame) (pl2 : List Nat),
      st.fragmentFrameHeader = none → f.fin = true →
      f.rsv2 = false → f.rsv3 = false → f.opcode = opText →
      (f.rsv1 = true → cfg.decompression = true) →
      (if f.rsv1 && cfg.decompression then cfg.inflate f.payload
       else Except.ok f.payload) = Except.ok pl2 →
      cfg.utf8Check pl2 = false →
      processCallback cfg st f =
        ⟨st, [Action.onClose (some WsErr.textNotUTF8)], some WsErr.textNotUTF8⟩) ∧
    (∀ (cfg : Config) (st : ConnSt) (fh f : Frame) (pl2 : List Nat),
      st.fragmentFrameHeader = some fh → fh.opcode = opText →
      f.opcode = opContinuation → f.fin = true →
      f.rsv2 = false → f.rsv3 = false →
      (f.rsv1 = true → cfg.decompression = true) →
      (if fh.rsv1 && cfg.decompression then
        cfg.inflate (st.fragmentFramePayload ++ f.payload)
       else Except.ok (st.fragmentFramePayload ++ f.payload)) = Except.ok pl2 →
      cfg.utf8Check pl2 = false →
      processCallback cfg st f =
        ⟨{ st with fragmentFramePayload := pl2 },
          [Action.onClose (some WsErr.textNotUTF8)], some WsErr.textNotUTF8⟩) := by
  constructor
  · intro cfg st f pl2 hfrag hfin h2 h3 hop hrsv hinf hu
    rcases f with ⟨ffin, fr1, fr2, fr3, fop, fplen, fpl⟩
    simp only at hfin h2 h3 hop hrsv hinf
    subst hfin h2 h3 hop
    cases fr1
    · simp only [Bool.false_and, Bool.false_eq_true, if_false, Except.ok.injEq] at hinf
      subst hinf
      simp [processCallback, hfrag, hu, opText, opBinary, isControl,
        opClose, opPing, opPong]
    · have hdec : cfg.decompression = true := hrsv rfl
      simp only [hdec, Bool.and_self, if_true] at hinf
      simp [processCallback, failRsv1, hfrag, hdec, hinf, hu, opText, opBinary,
        isControl, opClose, opPing, opPong]
  · intro cfg st fh f pl2 hfrag hfhop hop hfin h2 h3 hrsv hinf hu
    rcases f with ⟨ffin, fr1, fr2, fr3, fop, fplen, fpl⟩
    simp only at hfin h2 h3 hop hrsv hinf
    subst hfin h2 h3 hop
    cases fr1 <;>
      [skip; have hdec : cfg.decompression = true := hrsv rfl] <;>
      simp only [processCallback, hfrag, hfhop] <;>
      rw [hinf] <;>
      simp [failRsv1, isControl, opText, opBinary, opClose, opPing, opPong,
        opContinuation, hfhop, hu, *]

/-- A first Text fragment header (fin clear). -/
def fhText : Frame := ⟨false, false, false, false, opText, 1, []⟩

/-- A connection mid-way through the fragmented Text message started by
`fhText`, holding one accumulated payload byte. -/
def stFrag : ConnSt := ⟨some fhText, [1], false⟩

/-- Like `cfgU` (rejecting `utf8Check`) but with decompression enabled and
a concrete inflater that returns `[195]` (an invalid UTF-8 byte). -/
def cfgInf : Config :=
  { cfgU with decompression := true, inflate := fun _ => Except.ok [195] }

/-- C1 witness: the amended theorem applied on all three paths — an
uncompressed final Text frame, a compressed (`rsv1` set, decompression on)
final Text frame whose inflated payload fails the check, and the final
fragment of a Text message. -/
theorem c1_witness :
    processCallback cfgU st0 ⟨true, false, false, false, opText, 1, [254]⟩ =
      ⟨st0, [Action.onClose (some WsErr.textNotUTF8)], some WsErr.textNotUTF8⟩ ∧
    processCallback cfgInf st0 ⟨true, true, false, false, opText, 1, [7]⟩ =
      ⟨st0, [Action.onClose (some WsErr.textNotUTF8)], some WsErr.textNotUTF8⟩ ∧
    processCallback cfgU stFrag ⟨true, false, false, false, opContinuation, 1, [2]⟩ =
      ⟨{ stFrag with fragmentFramePayload := [1, 2] },
        [Action.onClose (some WsErr.textNotUTF8)], some WsErr.textNotUTF8⟩ :=
  ⟨c1_thm.1 cfgU st0 ⟨true, false, false, false, opText, 1, [254]⟩ [254]
      rfl rfl rfl rfl rfl (by decide) rfl rfl,
   c1_thm.1 cfgInf st0 ⟨true, true, false, false, opText, 1, [7]⟩ [195]
      rfl rfl rfl rfl rfl (fun _ => rfl) rfl rfl,
   c1_thm.2 cfgU stFrag fhText ⟨true, false, false, false, opContinuation, 1, [2]⟩
      [1, 2] rfl rfl rfl rfl rfl rfl (by decide) rfl rfl⟩

/-- Once the closed flag is set, further `Close` calls produce no actions
and leave the state unchanged. -/
theorem iterClose_closed (n : Nat) (st : CloseSt) (h : st.closed = true) :
    iterClose n st = (st, []) := by
  induction n with
  | zero => rfl
  | succ m ih =>
    simp [iterClose, connClose, closeAndWaitOnMessage, h, ih]

/-- C2 counterexample: an open connection (one that has reached `OnOpen`)
that receives two protocol-error frames — here two frames with `rsv2` set —
has `OnClose` invoked twice, not exactly once: `writeErrAndOnClose` calls
`OnClose` directly on every protocol error, outside the `closeOnce` gate,
and the `bigws` event loop keeps dispatching after an error. -/
theorem c2_counterexample :
    countOnClose (runFrames cfgA st0 [badFrame, badFrame]).2 = 2 := by decide

/-- C2 (amended): the `Close` path alone is exactly-once — any positive
number of `Close` calls on a fresh connection invokes `OnClose` exactly
once (the closed flag and the `closeOnce` gate) — but the dispatcher's
protocol-error path invokes `OnClose` outside that gate, once per
erroneous frame. -/
theorem c2_thm (fd : Int) (n : Nat) (h : 1 ≤ n) :
    countOnClose (iterClose n ⟨false, false, fd⟩).2 = 1 := by
  obtain ⟨m, rfl⟩ : ∃ m, n = m + 1 := ⟨n - 1, by omega⟩
  simp [iterClose, connClose, closeAndWaitOnMessage, closeInner,
    iterClose_closed, countOnClose, isOnClose]

/-- C2 witness: three `Close` calls on a fresh connection with fd 5 invoke
`OnClose` exactly once. -/
theorem c2_witness : countOnClose (iterClose 3 ⟨false, false, 5⟩).2 = 1 :=
  c2_thm 5 3 (by decide)

/-- C3: with at least two unread bytes in `HeaderStart` state, the parser
decodes the head byte (FIN/RSV1-3 travel in `head`, the opcode is its low
nibble), the mask bit and the 7-bit length, consumes the two bytes and
moves to the next state — for every two-byte combination EXCEPT an
unmasked frame with 7-bit length 0: there (second conjunct) `readHeader`
on the wire bytes `0x88 0x00` returns with the state still `HeaderStart`,
`ri` still 0 and no error, so the parser makes no progress on a legal
empty unmasked frame, ever. -/
theorem c3_thm :
    (∀ c : RConn, c.curState = FrameState.headerStart →
      c.ri + 2 ≤ c.rbuf.length →
      ¬(c.rbuf.getD (c.ri + 1) 0 &&& 127 = 0 ∧ c.rbuf.getD (c.ri + 1) 0 &&& 128 = 0) →
      readHeaderStart c =
        ⟨{ c with
            rh := ⟨((c.rbuf.getD (c.ri + 1) 0 &&& 127 : Nat) : Int),
              c.rbuf.getD c.ri 0 &&& 15, c.rh.maskKey,
              decide (0 < c.rbuf.getD (c.ri + 1) 0 &&& 128), c.rbuf.getD c.ri 0⟩
            curState := FrameState.headerPayloadAndMask
            haveSize :=
              (if 0 < c.rbuf.getD (c.ri + 1) 0 &&& 128 then 4 else 0) +
              (if c.rbuf.getD (c.ri + 1) 0 &&& 127 = 126 then 2
               else if c.rbuf.getD (c.ri + 1) 0 &&& 127 = 127 then 8 else 0)
            ri := c.ri + 2 }, none, true⟩) ∧
    (readHeader stuckConn).1.curState = FrameState.headerStart ∧
    (readHeader stuckConn).1.ri = 0 ∧
    (readHeader stuckConn).2 = none := by
  refine ⟨?_, by decide, by decide, by decide⟩
  intro c h1 h2 h3
  have hlen : ¬(c.rbuf.length - c.ri < 2) := by omega
  simp only [readHeaderStart]
  rw [if_neg hlen]
  generalize hb1 : c.rbuf.getD (c.ri + 1) 0 = b1 at h3 ⊢
  have hb : b1 &&& 127 ≤ 127 := Nat.and_le_right
  rcases Nat.lt_or_ge (b1 &&& 127) 126 with h125 | hge
  · have hc1 : ((b1 &&& 127 : Nat) : Int) ≤ 125 := by
      exact_mod_cast Nat.lt_succ_iff.mp h125
    have h126ne : ¬(b1 &&& 127 = 126) := by omega
    have h127ne : ¬(b1 &&& 127 = 127) := by omega
    by_cases h128 : 0 < b1 &&& 128
    · simp [hc1, h128, h126ne, h127ne]
    · have h0 : b1 &&& 127 ≠ 0 := fun hz => h3 ⟨hz, by omega⟩
      simp [hc1, h128, h126ne, h127ne, h0, Nat.cast_eq_zero]
  · rcases Nat.lt_or_ge (b1 &&& 127) 127 with hx | hy
    · have h126 : b1 &&& 127 = 126 := by omega
      by_cases h128 : 0 < b1 &&& 128
      · simp [h126, h128]
      · simp [h126, h128]
    · have h127 : b1 &&& 127 = 127 := by omega
      by_cases h128 : 0 < b1 &&& 128
      · simp [h127, h128]
      · simp [h127, h128]

/-- C3 witness: the decode-and-transition part applied to the masked
header bytes `0x81 0x85` (text, fin, masked, 7-bit length 5). -/
theorem c3_witness :
    readHeaderStart ⟨[129, 133], 0, FrameState.headerStart, 0, rhZero⟩ =
      ⟨⟨[129, 133], 2, FrameState.headerPayloadAndMask, 4, ⟨5, 1, 0, true, 129⟩⟩,
        none, true⟩ :=
  (c3_thm.1 ⟨[129, 133], 0, FrameState.headerStart, 0, rhZero⟩ rfl (by decide)
    (by decide)).trans (by decide)

/-- C4: the parser does NOT reject an 8-byte extended length with the most
significant bit set.  On the header `0x82 0x7F` followed by
`0x80 00 00 00 00 00 00 00` it reports no error, reaches the `Payload`
state, and stores the Go `int64` reinterpretation of the wire value — the
negative `-2^63` — in `payloadLen`. -/
theorem c4_thm :
    (readHeader negLenConn).2 = none ∧
    (readHeader negLenConn).1.curState = FrameState.payload ∧
    (readHeader negLenConn).1.rh.payloadLen = -(2 ^ 63) ∧
    (readHeader negLenConn).1.rh.payloadLen < 0 := by decide

/-- C5 counterexample: with `replyPing` disabled, the dispatcher handles the
incoming Ping `0x89 0x04 "ping"` by invoking `OnMessage` with opcode Ping
and a `nil` payload — not the ping's payload bytes, which the claim
promises for every received Ping. -/
theorem c5_counterexample :
    processCallback cfgNoReply st0 pingFrame =
      ⟨st0, [Action.onMessage opPing none], none⟩ ∧
    Action.onMessage opPing none ≠ Action.onMessage opPing (some pingPayload) := by
  constructor
  · decide
  · decide

/-- C5 (amended): when `replyPing` is enabled, a received Ping (fin, length
≤ 125) first has a Pong echoing its payload handed to the write layer and
then `OnMessage(Ping, payload)` invoked — and on the wire the Pong for
`0x89 0x04 "ping"` is `0x8A 0x04 "ping"`; when `replyPing` is disabled,
`OnMessage` is invoked with opcode Ping and a `nil` payload instead. -/
theorem c5_thm :
    (∀ (cfg : Config) (st : ConnSt) (f : Frame),
      st.closed = false → cfg.writeOk = true → cfg.replyPing = true →
      f.opcode = opPing → f.fin = true → f.rsv1 = false → f.rsv2 = false →
      f.rsv3 = false → f.payloadLen ≤ ((maxControlFrameSize : Nat) : Int) →
      processCallback cfg st f =
        ⟨st, [Action.writeFrame true false cfg.client opPong f.payload,
              Action.onMessage opPing (some f.payload)], none⟩) ∧
    (∀ (cfg : Config) (st : ConnSt) (f : Frame),
      cfg.replyPing = false → cfg.writeOk = true →
      f.opcode = opPing → f.fin = true → f.rsv1 = false → f.rsv2 = false →
      f.rsv3 = false → f.payloadLen ≤ ((maxControlFrameSize : Nat) : Int) →
      processCallback cfg st f = ⟨st, [Action.onMessage opPing none], none⟩) ∧
    encodeFrame true false opPong false 0 pingPayload =
      [0x8A, 0x04, 112, 105, 110, 103] := by
  refine ⟨?_, ?_, by decide⟩
  · intro cfg st f hcl hw hr hop hfin h1 h2 h3 hlen
    rcases f with ⟨ffin, fr1, fr2, fr3, fop, fplen, fpl⟩
    simp only at hfin h1 h2 h3 hop hlen
    subst hfin h1 h2 h3 hop
    have hnle : ¬(((maxControlFrameSize : Nat) : Int) < fplen) := by omega
    simp [processCallback, isControl, opPing, opClose, opPong, opText, opBinary,
      WriteTimeout, WriteMessage, hcl, hw, hr, hnle]
  · intro cfg st f hr hw hop hfin h1 h2 h3 hlen
    rcases f with ⟨ffin, fr1, fr2, fr3, fop, fplen, fpl⟩
    simp only at hfin h1 h2 h3 hop hlen
    subst hfin h1 h2 h3 hop
    have hnle : ¬(((maxControlFrameSize : Nat) : Int) < fplen) := by omega
    simp [processCallback, isControl, opPing, opClose, opPong, opText, opBinary,
      hr, hnle]

/-- C5 witness: the reply-enabled part applied to `cfgA` and the concrete
Ping frame carrying `"ping"`. -/
theorem c5_witness :
    processCallback cfgA st0 pingFrame =
      ⟨st0, [Action.writeFrame true false false opPong pingPayload,
             Action.onMessage opPing (some pingPayload)], none⟩ :=
  c5_thm.1 cfgA st0 pingFrame rfl rfl rfl rfl rfl rfl rfl rfl (by decide)

set_option maxRecDepth 20000 in
/-- C6: `secWebSocketAcceptVal` is the base64 encoding of the SHA-1 of the
key bytes followed by the RFC 6455 GUID, and on the RFC sample key
`"dGhlIHNhbXBsZSBub25jZQ=="` it yields `"s3pPLMBiTxaQ9kYGzzhZRbK+xOo="`. -/
theorem c6_thm :
    (∀ k : String, secWebSocketAcceptVal k = base64Encode (sha1 (strBytes k ++ uuid))) ∧
    secWebSocketAcceptVal "dGhlIHNhbXBsZSBub25jZQ==" = "s3pPLMBiTxaQ9kYGzzhZRbK+xOo=" :=
  ⟨fun _ => rfl, by decide⟩

/-- C7: a control frame (Close, Ping or Pong; reserved bits clear) whose
header payload length exceeds 125 makes the dispatcher hand a Close frame
carrying status 1002 (`ProtocolError`, bytes `[3, 234]`) to the write
layer, invoke `OnClose(ErrMaxControlFrameSize)`, and fail with
`ErrMaxControlFrameSize`. -/
theorem c7_thm (cfg : Config) (st : ConnSt) (f : Frame)
    (hcl : st.closed = false) (hw : cfg.writeOk = true)
    (h1 : f.rsv1 = false) (h2 : f.rsv2 = false) (h3 : f.rsv3 = false)
    (hop : f.opcode = opClose ∨ f.opcode = opPing ∨ f.opcode = opPong)
    (hlen : ((maxControlFrameSize : Nat) : Int) < f.payloadLen) :
    processCallback cfg st f =
      ⟨st, [Action.writeFrame true false cfg.client opClose (statusCodeToBytes ProtocolError),
            Action.onClose (some WsErr.maxControlFrameSize)],
        some WsErr.maxControlFrameSize⟩ ∧
    statusCodeToBytes ProtocolError = [3, 234] := by
  refine ⟨?_, by decide⟩
  rcases f with ⟨ffin, fr1, fr2, fr3, fop, fplen, fpl⟩
  simp only at h1 h2 h3 hop hlen
  subst h1 h2 h3
  rcases hop with rfl | rfl | rfl <;>
    simp [processCallback, isControl, opClose, opPing, opPong, opText, opBinary,
      writeErrAndOnClose, WriteTimeout, WriteMessage, hcl, hw, hlen]

/-- C7 witness: `cfgA`, a fresh state, and a Ping frame announcing a
126-byte payload. -/
theorem c7_witness :
    processCallback cfgA st0 ⟨true, false, false, false, opPing, 126, []⟩ =
      ⟨st0, [Action.writeFrame true false false opClose [3, 234],
             Action.onClose (some WsErr.maxControlFrameSize)],
        some WsErr.maxControlFrameSize⟩ :=
  ((c7_thm cfgA st0 ⟨true, false, false, false, opPing, 126, []⟩
    rfl rfl rfl rfl rfl (Or.inr (Or.inl rfl)) (by decide)).1).trans (by decide)

/-- C8: `WriteMessage` on a closed connection returns `ErrClosed` with no
bytes written, and on an open connection a Text payload rejected by
`utf8Check` returns `ErrTextNotUTF8` with no bytes written. -/
theorem c8_thm (cfg : Config) (op : Nat) (buf : List Nat) :
    WriteMessage cfg true op buf = ([], some WsErr.closed) ∧
    (op = opText → cfg.utf8Check buf = false →
      WriteMessage cfg false op buf = ([], some WsErr.textNotUTF8)) := by
  constructor
  · simp [WriteMessage]
  · intro h hu
    subst h
    simp [WriteMessage, hu]

/-- C8 witness: the closed case on `cfgA` and the UTF-8 case on `cfgU`
(whose `utf8Check` rejects everything) with payload `[255]`. -/
theorem c8_witness :
    WriteMessage cfgA true opText [104] = ([], some WsErr.closed) ∧
    WriteMessage cfgU false opText [255] = ([], some WsErr.textNotUTF8) :=
  ⟨(c8_thm cfgA opText [104]).1, (c8_thm cfgU opText [255]).2 rfl rfl⟩

/-- `equalFold` is reflexive. -/
theorem equalFold_self (s : String) : equalFold s s = true := by
  simp [equalFold]

/-- C9: whenever `validateRsp` accepts the response (status 101 and valid
`Upgrade`, `Connection` and `Sec-WebSocket-Accept` headers), `Dial`
returns a nil `*Conn` together with a nil error: the success path ends in
`return nil, nil`. -/
theorem c9_thm (rsp : HttpResp) (key : String)
    (h : validateRsp rsp key = none) :
    dialFinish rsp key = (none, none) := by
  simp [dialFinish, h]

/-- C9 witness: a well-formed 101 response whose accept header is the
computed accept value for the RFC sample key. -/
theorem c9_witness :
    dialFinish
      ⟨101, "websocket", "Upgrade", secWebSocketAcceptVal "dGhlIHNhbXBsZSBub25jZQ=="⟩
      "dGhlIHNhbXBsZSBub25jZQ==" = (none, none) :=
  c9_thm _ _ (by simp [validateRsp, equalFold_self])

/-- C10: when `unix.Write` reports `EAGAIN`/`EINTR` with a non-negative
byte count within bounds, `conn.Write`'s remainder computation stays in
bounds (first conjunct) — but on Linux a failing `unix.Write` returns
`n = -1`, and there (second conjunct, with a 2-byte buffer) the slice
expression `b[n:]` is out of bounds: `conn.Write` panics instead of
buffering, contrary to the claim that it never panics. -/
theorem c10_thm :
    (∀ (wbuf b : List Nat) (n : Int) (e : UnixErr),
      (e = UnixErr.eagain ∨ e = UnixErr.eintr) → 0 ≤ n →
      n ≤ (((if 0 < wbuf.length then wbuf ++ b else b).length : Nat) : Int) →
      (connWrite wbuf b (n, some e)).isSome = true) ∧
    connWrite [] [104, 105] (-1, some UnixErr.eagain) = none := by
  refine ⟨?_, by decide⟩
  intro wbuf b n e he h0 hle
  have hmk : (0 : Int) ≤ ((if 0 < wbuf.length then wbuf ++ b else b).length : Int) - n := by
    omega
  rcases he with rfl | rfl <;>
    simp [connWrite, goMake, goSliceFrom, hmk, h0, hle]

/-- C10 witness: the in-bounds part applied at `n = 0`, `EAGAIN`, an empty
write buffer and a 2-byte payload. -/
theorem c10_witness :
    (connWrite [] [104, 105] (0, some UnixErr.eagain)).isSome = true :=
  c10_thm.1 [] [104, 105] 0 UnixErr.eagain (Or.inl rfl) (by decide) (by decide)

end Greatws
